import Mathlib

/-!
Verification of the `Isomorphism` module of fp-ts-std.

The module defines a record `Isomorphism A B` of two functions `to : A → B`
and `from : B → A`, a monocle-ts-style `Iso` record (`get` / `reverseGet`),
conversions between the two (`toIso`, `fromIso`, via the private helper
`getIsoIso`), `reverse`, and `deriveSemigroup` which transports a semigroup
across an isomorphism.  Since `to` and `from` are reserved words in Lean, the
fields are named `to'` and `from'` here; they correspond exactly to the
source's `to` and `from`.
-/

namespace FpTsStd

/-- The `Isomorphism<A, B>` type of src/Isomorphism.ts: a pair of functions
`to : A → B` and `from : B → A` (rendered `to'` and `from'`). -/
structure Isomorphism (A B : Type) where
  to' : A → B
  from' : B → A

/-- The monocle-ts `Iso<A, B>` shape as consumed by the module: a pair of
functions `get : A → B` and `reverseGet : B → A`. -/
structure Iso (A B : Type) where
  get : A → B
  reverseGet : B → A

/-- The fp-ts `Semigroup<A>` shape as consumed by the module: a single binary
operation `concat`. -/
structure Semigroup' (A : Type) where
  concat : A → A → A

/-- The private helper `getIsoIso` (src/Isomorphism.ts lines 29-32): an
`Isomorphism` between `Isomorphism A B` and `Iso A B`. -/
def getIsoIso {A B : Type} : Isomorphism (Isomorphism A B) (Iso A B) where
  to' := fun x => { get := x.to', reverseGet := x.from' }
  from' := fun x => { to' := x.get, from' := x.reverseGet }

/-- `toIso` (src/Isomorphism.ts lines 39-40). -/
def toIso {A B : Type} (x : Isomorphism A B) : Iso A B :=
  getIsoIso.to' x

/-- `fromIso` (src/Isomorphism.ts lines 47-48). -/
def fromIso {A B : Type} (x : Iso A B) : Isomorphism A B :=
  getIsoIso.from' x

/-- `reverse` (src/Isomorphism.ts lines 55-58). -/
def reverse {A B : Type} (x : Isomorphism A B) : Isomorphism B A where
  to' := x.from'
  from' := x.to'

/-- `deriveSemigroup` (src/Isomorphism.ts lines 83-87). -/
def deriveSemigroup {A B : Type} (x : Isomorphism A B) (S : Semigroup' A) :
    Semigroup' B where
  concat := fun y z => x.to' (S.concat (x.from' y) (x.from' z))

/-- The `Binary` type of the doc example: the TypeScript union `0 | 1`. -/
abbrev Binary : Type := Fin 2

/-- The concrete isomorphism of the doc example and §8 of the spec:
`to = x => x ? 1 : 0`, `from = n => n === 1`. -/
def isoBoolBinary : Isomorphism Bool Binary where
  to' := fun x => if x then (1 : Fin 2) else (0 : Fin 2)
  from' := fun n => decide ((n : Fin 2) = 1)

/-- fp-ts `Bool.SemigroupAll`: logical AND over booleans. -/
def semigroupAll : Semigroup' Bool where
  concat := fun x y => x && y

end FpTsStd

namespace FpTsStd

/-- Claim C1: for every isomorphism `i`, semigroup `S` over `A` and values
`b1 b2 : B`, the derived semigroup satisfies
`(deriveSemigroup i S).concat b1 b2 = i.to (S.concat (i.from b1) (i.from b2))`. -/
theorem claim_C1_deriveSemigroup_correct {A B : Type} (i : Isomorphism A B)
    (S : Semigroup' A) (b1 b2 : B) :
    (deriveSemigroup i S).concat b1 b2 =
      i.to' (S.concat (i.from' b1) (i.from' b2)) := rfl

/-- Claim C2: when `i` satisfies the bijection invariant and `S.concat` is
associative, the derived operation `(deriveSemigroup i S).concat` is
associative over `B`. -/
theorem claim_C2_deriveSemigroup_assoc {A B : Type} (i : Isomorphism A B)
    (S : Semigroup' A)
    (hfrom_to : ∀ a : A, i.from' (i.to' a) = a)
    (hassoc : ∀ x y z : A, S.concat (S.concat x y) z = S.concat x (S.concat y z))
    (x y z : B) :
    (deriveSemigroup i S).concat ((deriveSemigroup i S).concat x y) z =
      (deriveSemigroup i S).concat x ((deriveSemigroup i S).concat y z) := by
  show i.to' (S.concat (i.from' (i.to' (S.concat (i.from' x) (i.from' y)))) (i.from' z)) =
    i.to' (S.concat (i.from' x) (i.from' (i.to' (S.concat (i.from' y) (i.from' z)))))
  rw [hfrom_to, hfrom_to, hassoc]

/-- Witness for C2: the identity isomorphism on `Bool` with the logical-AND
semigroup, at concrete inputs. -/
theorem claim_C2_witness :
    (deriveSemigroup (Isomorphism.mk id id) semigroupAll).concat
        ((deriveSemigroup (Isomorphism.mk id id) semigroupAll).concat true false) true =
      (deriveSemigroup (Isomorphism.mk id id) semigroupAll).concat true
        ((deriveSemigroup (Isomorphism.mk id id) semigroupAll).concat false true) :=
  claim_C2_deriveSemigroup_assoc (Isomorphism.mk id id) semigroupAll
    (fun _ => rfl) (fun x y z => Bool.and_assoc x y z) true false true

/-- Claim C3: `toIso i` has `get = i.to` and `reverseGet = i.from`, and
`fromIso o` has `to = o.get` and `from = o.reverseGet`. -/
theorem claim_C3_conversions_relabel {A B : Type} (i : Isomorphism A B)
    (o : Iso A B) :
    (toIso i).get = i.to' ∧ (toIso i).reverseGet = i.from' ∧
      (fromIso o).to' = o.get ∧ (fromIso o).from' = o.reverseGet :=
  ⟨rfl, rfl, rfl, rfl⟩

/-- Claim C4: the two conversions round-trip in either order, pointwise on
all inputs. -/
theorem claim_C4_roundtrip {A B : Type} (i : Isomorphism A B) (o : Iso A B)
    (a : A) (b : B) :
    (fromIso (toIso i)).to' a = i.to' a ∧
      (fromIso (toIso i)).from' b = i.from' b ∧
      (toIso (fromIso o)).get a = o.get a ∧
      (toIso (fromIso o)).reverseGet b = o.reverseGet b :=
  ⟨rfl, rfl, rfl, rfl⟩

/-- Claim C5: `reverse i` has `to = i.from` and `from = i.to`, pointwise on
all inputs. -/
theorem claim_C5_reverse_swaps {A B : Type} (i : Isomorphism A B)
    (a : A) (b : B) :
    (reverse i).to' b = i.from' b ∧ (reverse i).from' a = i.to' a :=
  ⟨rfl, rfl⟩

/-- Claim C6: `reverse` is an involution: `reverse (reverse i)` behaves
identically to `i` on all inputs. -/
theorem claim_C6_reverse_involutive {A B : Type} (i : Isomorphism A B)
    (a : A) (b : B) :
    (reverse (reverse i)).to' a = i.to' a ∧
      (reverse (reverse i)).from' b = i.from' b :=
  ⟨rfl, rfl⟩

/-- Claim C7: for the concrete boolean ⇄ binary-digit isomorphism and the
logical-AND semigroup, the derived semigroup sends `(0, 1)` to `0` and
`(1, 1)` to `1`. -/
theorem claim_C7_concrete_scenario :
    (deriveSemigroup isoBoolBinary semigroupAll).concat (0 : Fin 2) (1 : Fin 2)
        = (0 : Fin 2) ∧
      (deriveSemigroup isoBoolBinary semigroupAll).concat (1 : Fin 2) (1 : Fin 2)
        = (1 : Fin 2) := by
  constructor <;> decide

/-- Claim C8: every exported operation is total: for every well-typed input
it returns a value (and, the language being pure, no error branch exists). -/
theorem claim_C8_totality {A B : Type} (i : Isomorphism A B) (o : Iso A B)
    (S : Semigroup' A) (b1 b2 : B) :
    (∃ r : Iso A B, toIso i = r) ∧
      (∃ r : Isomorphism A B, fromIso o = r) ∧
      (∃ r : Isomorphism B A, reverse i = r) ∧
      (∃ r : Semigroup' B, deriveSemigroup i S = r) ∧
      (∃ r : B, (deriveSemigroup i S).concat b1 b2 = r) :=
  ⟨⟨_, rfl⟩, ⟨_, rfl⟩, ⟨_, rfl⟩, ⟨_, rfl⟩, ⟨_, rfl⟩⟩

/-- Claim C9: deriving through a reversed isomorphism transports a semigroup
in the opposite direction:
`(deriveSemigroup (reverse x) S).concat a1 a2 = x.from (S.concat (x.to a1) (x.to a2))`. -/
theorem claim_C9_derive_reverse {A B : Type} (x : Isomorphism A B)
    (S : Semigroup' B) (a1 a2 : A) :
    (deriveSemigroup (reverse x) S).concat a1 a2 =
      x.from' (S.concat (x.to' a1) (x.to' a2)) := rfl

/-- Claim C10: `getIsoIso` itself satisfies the bijection invariant: its
round-trips reproduce, pointwise, the behaviour of the original
`Isomorphism` or `Iso`. -/
theorem claim_C10_getIsoIso_bijective {A B : Type} (x : Isomorphism A B)
    (y : Iso A B) (a : A) (b : B) :
    ((getIsoIso.from' (getIsoIso.to' x)).to' a = x.to' a ∧
        (getIsoIso.from' (getIsoIso.to' x)).from' b = x.from' b) ∧
      ((getIsoIso.to' (getIsoIso.from' y)).get a = y.get a ∧
        (getIsoIso.to' (getIsoIso.from' y)).reverseGet b = y.reverseGet b) :=
  ⟨⟨rfl, rfl⟩, ⟨rfl, rfl⟩⟩

end FpTsStd
